import Mathlib

/-!
Verification development for the GS13Bot notification engine.

Shallow embedding of the refactored modules `update_manager.py`,
`user_data_manager.py`, `helpers.py`, `job_search.py`,
`command_handlers.py` and `user_interaction.py`.  Pure data flow is
translated directly; the chat transport is an oracle function from the
attempted call to an optional returned message id (`none` = the call
raised `TelegramError` / `aiohttp.ClientError`), and the upstream probe
is an outcome value fed to the embedded `check_for_job_posting`.  Where
the source binds a method to the wrong receiver or drops an `await`, the
embedding reproduces the resulting runtime behaviour rather than the
apparent intent: see `composeViaApplication` (the found-cycle
`AttributeError` of `get_update`) and `repost` (the never-delivered
reply and the always-raising copy of the `/repost` handler).
-/

namespace GS13Bot

/-- One record of the user-data JSON store (`user_data.json`), exactly the
fields created by `CommandHandlers.start`. -/
structure UserData where
  user_id : Int
  chat_id : Option Int
  username : String
  email : Option String
  phone : Option String
  status_message_id : Option Nat
  active : Bool
deriving DecidableEq

/-- The in-memory store of `UserDataManager`: a Python dict keyed by the
user-id string.  Python dicts preserve insertion order, so the model is an
ordered association list. -/
abbrev Store := List (String × UserData)

/-- `UserDataManager.get_user_data`: `self.user_data_dict.get(user_id)`. -/
def getUserData : Store → String → Option UserData
  | [], _ => none
  | (k, v) :: t, u => if k = u then some v else getUserData t u

/-- `UserDataManager.update_user_data`: `self.user_data_dict[user_id] = data`
followed by a whole-store save.  A dict assignment keeps the position of an
existing key and appends a fresh key. -/
def updateUserData : Store → String → UserData → Store
  | [], u, d => [(u, d)]
  | (k, v) :: t, u, d => if k = u then (u, d) :: t else (k, v) :: updateUserData t u d

/-- A chat-transport call attempted by the engine. -/
inductive TCall where
  | send (chat : Int) (text : String)
  | edit (chat : Int) (msgId : Nat) (text : String)
  | copy (chat : Int) (msgId : Nat)
deriving DecidableEq

/-- Observable events of one poll cycle: the three per-entry field reads
of `send_update` (lines 79-81 of `update_manager.py`, performed before
the chat/active checks), the transport calls tagged with the subscriber
they are addressed to, the `logging.error` call of the `except` clause,
and the `AttributeError` that escapes `get_update` uncaught when message
composition is attempted on a "found" cycle (see
`composeViaApplication`). -/
inductive Ev where
  | readChat (uid : String)
  | readMsg (uid : String)
  | readActive (uid : String)
  | tcall (uid : String) (c : TCall)
  | logError
  | uncaughtAttrError
deriving DecidableEq

/-- The field reads at the top of each iteration of `send_update`. -/
def readEvs (u : String) : List Ev := [.readChat u, .readMsg u, .readActive u]

/-- Substring worker over character lists (Python `in` on strings). -/
def subList (n : List Char) : List Char → Bool
  | [] => n.isEmpty
  | c :: t => n.isPrefixOf (c :: t) || subList n t

/-- Python `needle in haystack` for strings. -/
def containsSub (n h : String) : Bool := subList n.data h.data

/-- The loop body of `UpdateManager.send_update` (lines 78-136), iterating
over a snapshot of the dict items while threading the live store.  The
transport oracle `tr` yields the new message id, or `none` when the call
raises; the `except` clause logs and then executes `return`, ending the
whole fan-out. -/
def sendUpdateGo (tr : TCall → Option Nat) (jobFound : Bool) (text : String) :
    List (String × UserData) → Store → List Ev × Store
  | [], st => ([], st)
  | (u, d) :: rest, st =>
    match d.chat_id with
    | none =>
        -- "Chat ID not found for user %s. Skipping."
        let r := sendUpdateGo tr jobFound text rest st
        (readEvs u ++ r.1, r.2)
    | some ch =>
        if d.active then
          if jobFound then
            match tr (.send ch text) with
            | some _ =>
                let r := sendUpdateGo tr jobFound text rest st
                (readEvs u ++ .tcall u (.send ch text) :: r.1, r.2)
            | none => (readEvs u ++ [.tcall u (.send ch text), .logError], st)
          else
            match d.status_message_id with
            | some m =>
                match tr (.edit ch m text) with
                | some _ =>
                    let r := sendUpdateGo tr jobFound text rest st
                    (readEvs u ++ .tcall u (.edit ch m text) :: r.1, r.2)
                | none => (readEvs u ++ [.tcall u (.edit ch m text), .logError], st)
            | none =>
                match tr (.send ch text) with
                | some mid =>
                    let st1 :=
                      match getUserData st u with
                      | some d2 => updateUserData st u { d2 with status_message_id := some mid }
                      | none => st  -- unreachable: u is a key of the iterated store
                    let r := sendUpdateGo tr jobFound text rest st1
                    (readEvs u ++ .tcall u (.send ch text) :: r.1, r.2)
                | none => (readEvs u ++ [.tcall u (.send ch text), .logError], st)
        else
          -- "User %s has not activated updates. Skipping."
          let r := sendUpdateGo tr jobFound text rest st
          (readEvs u ++ r.1, r.2)

/-- `UpdateManager.send_update`: computes
`job_found = "Job found!" in message_text` and runs the fan-out over the
store's own entries. -/
def sendUpdate (tr : TCall → Option Nat) (text : String) (store : Store) :
    List Ev × Store :=
  sendUpdateGo tr (containsSub "Job found!" text) text store store

/-- Outcome of one run of the upstream probe pipeline inside
`check_for_job_posting`: either the search succeeded and the filter kept
`numFiltered` items, or some step raised. -/
inductive ProbeOutcome where
  | ok (numFiltered : Nat)
  | err
deriving DecidableEq

/-- `job_search.check_for_job_posting`: returns `True` when the filtered
result count is positive, falls off the end (returning `None`) when it is
zero, and catches every exception, returning `None`.  It never raises
`JobPostingError` or `NetworkError`. -/
def checkForJobPosting : ProbeOutcome → Option Bool
  | .ok n => if n > 0 then some true else none
  | .err => none

/-- Text of the transient status message (`helpers.py` line 84). -/
def notYetText (now : String) : String := "Not yet... Last checked at " ++ now

/-- Text of the terminal status message (`helpers.py` lines 78-81). -/
def foundTextMsg (first now : String) : String :=
  "Job found! Initially found at " ++ first ++ ". Last verified at " ++ now ++ ".\n/deactivate"

/-- `Helper.generate_update_message_text` (lines 58-84): given the held
`initial_job_found_time`, the probe boolean and the current timestamp,
returns the updated `initial_job_found_time` and the message text. -/
def generateUpdateMessageText (first : Option String) (isPosted : Bool) (now : String) :
    Option String × String :=
  if isPosted then
    let f := first.getD now
    (some f, foundTextMsg f now)
  else
    (first, notYetText now)

/-- Process-memory state of one poll-cycle run: the subscriber store plus
the first-observed-found timestamp of the composing helper (`Helper`
initialises it to `None`; in this program it is in fact never written,
because the only write site is unreachable — see
`composeViaApplication`). -/
structure EngineState where
  store : Store
  initial_job_found_time : Option String
deriving DecidableEq

/-- The message composition as actually invoked by `get_update`
(`update_manager.py` line 156):
`Helper.generate_update_message_text(self.application, is_job_posted=status)`
calls the method through the class with the telegram `Application` object
as receiver.  The "found" branch immediately reads
`self.initial_job_found_time` (`helpers.py` line 76), an attribute the
`Application` does not have, and raises `AttributeError` (`none` here)
before composing anything or assigning the first-found time.  The
"not found" branch touches no attribute of `self` and returns normally,
behaving exactly like `generate_update_message_text` on a real
`Helper`. -/
def composeViaApplication (first : Option String) (isPosted : Bool)
    (now : String) : Option (Option String × String) :=
  if isPosted then none
  else some (generateUpdateMessageText first false now)

/-- `UpdateManager.get_update` (lines 138-157): probes, coerces the result
with `bool(...)`, composes the message and fans out.  The
`except JobPostingError / NetworkError` handlers are dead code because the
embedded `checkForJobPosting` returns instead of raising.  When the
composition raises (every "found" cycle, see `composeViaApplication`),
the exception is not caught by `get_update`: the cycle ends before any
transport call, with no change to the store or to the first-found
state. -/
def getUpdate (probe : ProbeOutcome) (now : String) (tr : TCall → Option Nat)
    (es : EngineState) : EngineState × List Ev :=
  let status := (checkForJobPosting probe).getD false
  match composeViaApplication es.initial_job_found_time status now with
  | none => (es, [Ev.uncaughtAttrError])
  | some gen =>
      let r := sendUpdate tr gen.2 es.store
      (⟨r.2, gen.1⟩, r.1)

/-- Transport calls addressed to subscriber `u` in an event trace. -/
def evCallTo (u : String) : Ev → Option TCall
  | .tcall v c => if v = u then some c else none
  | _ => none

/-- All calls addressed to `u`, in order. -/
def tcallsTo (u : String) (evs : List Ev) : List TCall := evs.filterMap (evCallTo u)

/-- Result of a conversation-handler step: either the name of the state to
stay in (a re-prompt) or `ConversationHandler.END`. -/
inductive ConvRes where
  | reprompt (state : String)
  | endConv
deriving DecidableEq

/-- Python `str.strip()` whitespace set (ASCII part). -/
def pyWSChar (c : Char) : Bool :=
  c == ' ' || c == '\t' || c == '\n' || c == '\r' || c == '\x0b' || c == '\x0c'

/-- Python `str.strip()`. -/
def pyStrip (s : String) : String :=
  ⟨((s.data.dropWhile pyWSChar).reverse.dropWhile pyWSChar).reverse⟩

/-- Python `re.sub(r"[^\d]", "", s)` on ASCII input: keep the digits. -/
def stripNonDigits (s : String) : String := ⟨s.data.filter Char.isDigit⟩

/-- `new_phone[:3] + '-' + new_phone[3:6] + '-' + new_phone[6:]`. -/
def formatPhone (p : String) : String :=
  ⟨p.data.take 3⟩ ++ "-" ++ ⟨(p.data.drop 3).take 3⟩ ++ "-" ++ ⟨p.data.drop 6⟩

/-- Character class `[a-zA-Z0-9._%+-]` of the email pattern. -/
def isLocalChar (c : Char) : Bool :=
  c.isAlpha || c.isDigit || c == '.' || c == '_' || c == '%' || c == '+' || c == '-'

/-- Character class `[a-zA-Z0-9.-]` of the email pattern. -/
def isDomChar (c : Char) : Bool :=
  c.isAlpha || c.isDigit || c == '.' || c == '-'

/-- `re.match` of `UserInteraction.EMAIL_REGEX`, i.e. the pattern
`[a-zA-Z0-9._%+-]+@[a-zA-Z0-9.-]+(\.[a-zA-Z]{2,})+` anchored at the start
with an arbitrary unmatched suffix.  With backtracking, the pattern
succeeds exactly when some split exists: a nonempty local-class run
`l[0..k)`, the `@` at `k`, a nonempty domain-class run `l[k+1..m)`, a dot
at `m` and at least two ASCII letters after it (one group repetition
suffices; the rest of the input is the unmatched suffix). -/
def emailMatchB (l : List Char) : Bool :=
  (List.range l.length).any fun k =>
    decide (1 ≤ k) && (l.take k).all isLocalChar && (l.getD k ' ' == '@') &&
    ((List.range l.length).any fun m =>
      decide (k + 2 ≤ m) && decide (m + 2 < l.length) &&
      ((l.drop (k + 1)).take (m - (k + 1))).all isDomChar &&
      (l.getD m ' ' == '.') && (l.getD (m + 1) ' ').isAlpha && (l.getD (m + 2) ' ').isAlpha)

/-- `re.match` of `UserInteraction.PHONE_REGEX` (`^[0-9]{10}$`) applied to
the digits-only string: exactly ten ASCII digits.  (After
`stripNonDigits` no newline remains, so the `$` subtlety of Python is
vacuous.) -/
def phoneMatchB (l : List Char) : Bool :=
  l.length == 10 && l.all Char.isDigit

/-- Modelled from the spec's words (§8 "email values without an `@` and
a domain-with-dot are rejected"): the input has an `@` that is followed,
further right, by a dot — the spec-side predicate an accepted email must
satisfy. -/
def hasAtWithDottedDomain (l : List Char) : Prop :=
  ∃ i j, i < j ∧ j < l.length ∧ l.getD i ' ' = '@' ∧ l.getD j ' ' = '.'

/-- `UserInteraction.get_email` (lines 36-55): strip, validate against the
email regex, re-prompt in state `"get_email"` on failure, otherwise commit
via `update_user_data` and confirm.  (`update_user_data` swallows its own
failure for an unregistered user and reports an error message; `get_email`
then still emits the confirmation.) -/
def getEmail (store : Store) (uid : String) (text : String) :
    Store × List String × ConvRes :=
  let e := pyStrip text
  if emailMatchB e.data then
    match getUserData store uid with
    | some d =>
        (updateUserData store uid { d with email := some e },
         ["Your email address has been saved as " ++ e ++ "."], .endConv)
    | none =>
        (store,
         ["An error occurred. Please try again.",
          "Your email address has been saved as " ++ e ++ "."], .endConv)
  else
    (store,
     ["Invalid email address. Please try again.\n\n/clear your email address\n/cancel this operation"],
     .reprompt "get_email")

/-- `UserInteraction.get_phone` (lines 57-81): strip, remove all non-digit
characters, validate ten digits, re-prompt in state `"get_phone"` on
failure, otherwise commit and confirm with the `XXX-XXX-XXXX` rendering. -/
def getPhone (store : Store) (uid : String) (text : String) :
    Store × List String × ConvRes :=
  let p := stripNonDigits (pyStrip text)
  if phoneMatchB p.data then
    match getUserData store uid with
    | some d =>
        (updateUserData store uid { d with phone := some p },
         ["Your phone number has been saved as " ++ formatPhone p ++ "."], .endConv)
    | none =>
        (store,
         ["An error occurred. Please try again.",
          "Your phone number has been saved as " ++ formatPhone p ++ "."], .endConv)
  else
    (store,
     ["Invalid phone number. Please try again.\n\n/clear your phone number\n/cancel this operation"],
     .reprompt "get_phone")

/-- The long narrative greeting sent to a newly registered user by
`CommandHandlers.start`. -/
def welcomeText (firstName username : String) : String :=
  firstName ++ " hesitated, taking a deep breath before approaching the shimmering entity known as \"The Equal Opportunity Machine.\" The machine's glowing eyes scanned slowly, taking in every detail. After what felt like an eternity, a warm hum resonated from his core. \"Ah, " ++ firstName ++ ",\" he began with an unexpected softness, \"your essence is intriguing. Welcome. In our shared realm, you shall carry a new name. Henceforth, you are " ++ username ++ ". /activate my true power.\""

/-- `CommandHandlers.start` (lines 60-112).  `usernameRes` is the outcome
of `generate_username()` (`none` = it raised, caught by the handler);
`uidNum` is `int(user_id)`.  For an existing user the handler only sends
a status line and touches nothing.  (The photo upload of the new-user
branch is a transport side effect carrying no data; the greeting text is
the user-visible reply modelled here.) -/
def startCmd (store : Store) (uid : String) (uidNum chat : Int)
    (usernameRes : Option String) (firstName : String) : Store × List String :=
  match getUserData store uid with
  | some d =>
      (store,
       [if d.active then "Type /deactivate to stop receiving updates."
        else "Type /activate to receive updates."])
  | none =>
      match usernameRes with
      | none => (store, ["An error occurred. Please try again."])
      | some name =>
          (updateUserData store uid
             { user_id := uidNum, chat_id := some chat, username := name,
               email := none, phone := none, status_message_id := none,
               active := false },
           [welcomeText firstName name])

/-- `CommandHandlers.repost` (lines 11-58).  The second component lists
the replies actually delivered to the user; the Bool records whether the
`except` clause ran (`logging.error`).

Two `await`s are missing in the source:
* line 27 calls `update.message.reply_text(...)` without `await` in this
  fully-async python-telegram-bot v20 handler, so for an unregistered
  user the coroutine is created, discarded, and never executed — the
  "please use /start" message is never sent and no state changes;
* line 39 evaluates `context.bot.copyMessage(...).message_id` without
  `await`: `copyMessage(...)` is a coroutine object, reading
  `.message_id` on it raises `AttributeError` before any transport
  request is made.  The broad `except Exception` catches it and logs, so
  for a subscriber with a stored handle every invocation ends in the
  logged-failure path with the store unchanged; the handle-replacing
  success code (lines 46-47) is unreachable.

The `await`ed `send_message` of the no-handle guard (line 35) is
delivered normally. -/
def repost (store : Store) (uid : String) : Store × List String × Bool :=
  match getUserData store uid with
  | none => (store, [], false)
  | some d =>
      match d.status_message_id with
      | none => (store, ["No status message to repost."], false)
      | some _ => (store, [], true)

/-! ### Store lemmas -/

lemma getUserData_updateUserData_self (st : Store) (u : String) (d : UserData) :
    getUserData (updateUserData st u d) u = some d := by
  induction st with
  | nil => simp [updateUserData, getUserData]
  | cons hd tl ih =>
      obtain ⟨k, v⟩ := hd
      by_cases hk : k = u
      · subst hk
        simp [updateUserData, getUserData]
      · simp [updateUserData, getUserData, hk, ih]

lemma getUserData_updateUserData_ne (st : Store) (u v : String) (d : UserData)
    (h : u ≠ v) : getUserData (updateUserData st u d) v = getUserData st v := by
  induction st with
  | nil => simp [updateUserData, getUserData, h]
  | cons hd tl ih =>
      obtain ⟨k, w⟩ := hd
      by_cases hk : k = u
      · subst hk
        simp [updateUserData, getUserData, h]
      · simp [updateUserData, getUserData, hk, ih]

/-- A key present in a store with no duplicate keys splits the store around
its unique entry. -/
lemma getUserData_decomp (store : Store) (u : String) (d : UserData)
    (hnd : (store.map Prod.fst).Nodup) (hu : getUserData store u = some d) :
    ∃ l1 l2, store = l1 ++ (u, d) :: l2 ∧
      u ∉ l1.map Prod.fst ∧ u ∉ l2.map Prod.fst := by
  induction store with
  | nil => simp [getUserData] at hu
  | cons hd tl ih =>
      obtain ⟨k, v⟩ := hd
      rw [List.map_cons, List.nodup_cons] at hnd
      by_cases hk : k = u
      · subst hk
        have hv : v = d := by simpa [getUserData] using hu
        subst hv
        exact ⟨[], tl, by simp, by simp, hnd.1⟩
      · simp only [getUserData, if_neg hk] at hu
        obtain ⟨l1, l2, heq, h1, h2⟩ := ih hnd.2 hu
        refine ⟨(k, v) :: l1, l2, by simp [heq], ?_, h2⟩
        simp only [List.map_cons, List.mem_cons, not_or]
        exact ⟨fun h => hk h.symm, h1⟩

/-- Membership in a nodup-keyed store is determined by lookup. -/
lemma mem_eq_of_nodup (store : Store) (u : String) (d e : UserData)
    (hnd : (store.map Prod.fst).Nodup) (hu : getUserData store u = some d)
    (hm : (u, e) ∈ store) : e = d := by
  obtain ⟨l1, l2, heq, h1, h2⟩ := getUserData_decomp store u d hnd hu
  subst heq
  rcases List.mem_append.1 hm with h | h
  · exact absurd (List.mem_map_of_mem Prod.fst h) h1
  · rcases List.mem_cons.1 h with h | h
    · exact congrArg Prod.snd h
    · exact absurd (List.mem_map_of_mem Prod.fst h) h2

/-! ### Substring lemmas -/

lemma subList_append_not_mem (a : Char) (n p s : List Char) (hmem : a ∉ p) :
    subList (a :: n) (p ++ s) = subList (a :: n) s := by
  induction p with
  | nil => rfl
  | cons c t ih =>
      have hac : (a == c) = false := by
        simp only [List.mem_cons, not_or] at hmem
        simp [hmem.1]
      have hmem2 : a ∉ t := by
        simp only [List.mem_cons, not_or] at hmem
        exact hmem.2
      simp [subList, List.isPrefixOf, hac, ih hmem2]

/-- The needle tested by `send_update`. -/
def jfNeedle : String := "Job found!"

/-! ### Fan-out lemmas -/

lemma tcallsTo_nil (u : String) : tcallsTo u [] = [] := rfl

lemma tcallsTo_readEvs (u k : String) (x : List Ev) :
    tcallsTo u (readEvs k ++ x) = tcallsTo u x := by
  simp [tcallsTo, readEvs, evCallTo]

lemma tcallsTo_cons_tcall_ne (u k : String) (c : TCall) (x : List Ev)
    (h : ¬k = u) : tcallsTo u (Ev.tcall k c :: x) = tcallsTo u x := by
  simp [tcallsTo, evCallTo, h]

lemma tcallsTo_cons_tcall_self (u : String) (c : TCall) (x : List Ev) :
    tcallsTo u (Ev.tcall u c :: x) = c :: tcallsTo u x := by
  simp [tcallsTo, evCallTo]

lemma tcallsTo_cons_logError (u : String) (x : List Ev) :
    tcallsTo u (Ev.logError :: x) = tcallsTo u x := by
  simp [tcallsTo, evCallTo]

/-- If every entry for key `u` in the iterated list is inactive (in
particular if `u` does not occur at all), the fan-out addresses no
transport call to `u` and leaves `u`'s record untouched — whatever the
probe result, text, transport behaviour, and threaded store. -/
lemma go_inactive_skip (tr : TCall → Option Nat) (jf : Bool) (text : String)
    (u : String) :
    ∀ (l : List (String × UserData)) (st : Store),
      (∀ e, (u, e) ∈ l → e.active = false) →
      tcallsTo u (sendUpdateGo tr jf text l st).1 = [] ∧
      getUserData (sendUpdateGo tr jf text l st).2 u = getUserData st u := by
  intro l
  induction l with
  | nil => intro st _; simp [sendUpdateGo, tcallsTo_nil]
  | cons hd rest ih =>
      obtain ⟨k, d⟩ := hd
      intro st hin
      have hrest : ∀ e, (u, e) ∈ rest → e.active = false :=
        fun e he => hin e (List.mem_cons_of_mem _ he)
      by_cases hk : k = u
      · subst hk
        have hda : d.active = false := hin d (List.mem_cons_self _ _)
        cases hc : d.chat_id with
        | none =>
            have h := ih st hrest
            simp [sendUpdateGo, hc, tcallsTo_readEvs, h.1, h.2]
        | some ch =>
            have h := ih st hrest
            simp [sendUpdateGo, hc, hda, tcallsTo_readEvs, h.1, h.2]
      · cases hc : d.chat_id with
        | none =>
            have h := ih st hrest
            simp [sendUpdateGo, hc, tcallsTo_readEvs, h.1, h.2]
        | some ch =>
            cases hda : d.active with
            | false =>
                have h := ih st hrest
                simp [sendUpdateGo, hc, hda, tcallsTo_readEvs, h.1, h.2]
            | true =>
                cases jf with
                | true =>
                    cases htr : tr (.send ch text) with
                    | none =>
                        simp [sendUpdateGo, hc, hda, htr, tcallsTo_readEvs,
                          tcallsTo_cons_tcall_ne u k _ _ hk, tcallsTo_cons_logError,
                          tcallsTo_nil]
                    | some r =>
                        have h := ih st hrest
                        simp [sendUpdateGo, hc, hda, htr, tcallsTo_readEvs,
                          tcallsTo_cons_tcall_ne u k _ _ hk, h.1, h.2]
                | false =>
                    cases hm : d.status_message_id with
                    | some m =>
                        cases htr : tr (.edit ch m text) with
                        | none =>
                            simp [sendUpdateGo, hc, hda, hm, htr, tcallsTo_readEvs,
                              tcallsTo_cons_tcall_ne u k _ _ hk, tcallsTo_cons_logError,
                              tcallsTo_nil]
                        | some r =>
                            have h := ih st hrest
                            simp [sendUpdateGo, hc, hda, hm, htr, tcallsTo_readEvs,
                              tcallsTo_cons_tcall_ne u k _ _ hk, h.1, h.2]
                    | none =>
                        cases htr : tr (.send ch text) with
                        | none =>
                            simp [sendUpdateGo, hc, hda, hm, htr, tcallsTo_readEvs,
                              tcallsTo_cons_tcall_ne u k _ _ hk, tcallsTo_cons_logError,
                              tcallsTo_nil]
                        | some mid =>
                            cases hg : getUserData st k with
                            | none =>
                                have h := ih st hrest
                                simp [sendUpdateGo, hc, hda, hm, htr, hg,
                                  tcallsTo_readEvs,
                                  tcallsTo_cons_tcall_ne u k _ _ hk, h.1, h.2]
                            | some d2 =>
                                have hne : getUserData
                                    (updateUserData st k
                                      { d2 with status_message_id := some mid }) u =
                                    getUserData st u :=
                                  getUserData_updateUserData_ne st k u _ hk
                                have h := ih
                                  (updateUserData st k
                                    { d2 with status_message_id := some mid }) hrest
                                simp [sendUpdateGo, hc, hda, hm, htr, hg,
                                  tcallsTo_readEvs,
                                  tcallsTo_cons_tcall_ne u k _ _ hk, h.1, h.2, hne]

/-- When no transport call fails, the fan-out never aborts, so it
processes an appended list segment by segment. -/
lemma go_append (tr : TCall → Option Nat) (jf : Bool) (text : String)
    (hok : ∀ c, (tr c).isSome = true) :
    ∀ (a b : List (String × UserData)) (st : Store),
      sendUpdateGo tr jf text (a ++ b) st =
        ((sendUpdateGo tr jf text a st).1 ++
           (sendUpdateGo tr jf text b (sendUpdateGo tr jf text a st).2).1,
         (sendUpdateGo tr jf text b (sendUpdateGo tr jf text a st).2).2) := by
  intro a
  induction a with
  | nil => intro b st; simp [sendUpdateGo]
  | cons hd rest ih =>
      obtain ⟨k, d⟩ := hd
      intro b st
      cases hc : d.chat_id with
      | none => simp [sendUpdateGo, hc, ih]
      | some ch =>
          cases hda : d.active with
          | false => simp [sendUpdateGo, hc, hda, ih]
          | true =>
              cases jf with
              | true =>
                  obtain ⟨r, hr⟩ := Option.isSome_iff_exists.1 (hok (.send ch text))
                  simp [sendUpdateGo, hc, hda, hr, ih]
              | false =>
                  cases hm : d.status_message_id with
                  | some m =>
                      obtain ⟨r, hr⟩ :=
                        Option.isSome_iff_exists.1 (hok (.edit ch m text))
                      simp [sendUpdateGo, hc, hda, hm, hr, ih]
                  | none =>
                      obtain ⟨mid, hr⟩ :=
                        Option.isSome_iff_exists.1 (hok (.send ch text))
                      cases hg : getUserData st k with
                      | none => simp [sendUpdateGo, hc, hda, hm, hr, hg, ih]
                      | some d2 => simp [sendUpdateGo, hc, hda, hm, hr, hg, ih]

/-- A "job found" fan-out never mutates the store. -/
lemma go_found_store (tr : TCall → Option Nat) (text : String) :
    ∀ (l : List (String × UserData)) (st : Store),
      (sendUpdateGo tr true text l st).2 = st := by
  intro l
  induction l with
  | nil => intro st; simp [sendUpdateGo]
  | cons hd rest ih =>
      obtain ⟨k, d⟩ := hd
      intro st
      cases hc : d.chat_id with
      | none => simp [sendUpdateGo, hc, ih]
      | some ch =>
          cases hda : d.active with
          | false => simp [sendUpdateGo, hc, hda, ih]
          | true =>
              cases htr : tr (.send ch text) with
              | none => simp [sendUpdateGo, hc, hda, htr]
              | some r => simp [sendUpdateGo, hc, hda, htr, ih]

/-- Store mutation discipline of the fan-out: if any subscriber record
changes, it is the record of an entry that was active, had a chat handle
and had no stored status message, and the cycle was a "not found" one. -/
lemma go_mutation (tr : TCall → Option Nat) (jf : Bool) (text : String) :
    ∀ (l : List (String × UserData)) (st : Store) (v : String),
      getUserData (sendUpdateGo tr jf text l st).2 v ≠ getUserData st v →
      ∃ e, (v, e) ∈ l ∧ e.active = true ∧ e.chat_id.isSome = true ∧
        e.status_message_id = none ∧ jf = false := by
  intro l
  induction l with
  | nil => intro st v hne; simp [sendUpdateGo] at hne
  | cons hd rest ih =>
      obtain ⟨k, d⟩ := hd
      intro st v hne
      cases hc : d.chat_id with
      | none =>
          simp only [sendUpdateGo, hc] at hne
          obtain ⟨e, he, h1, h2, h3, h4⟩ := ih st v hne
          exact ⟨e, List.mem_cons_of_mem _ he, h1, h2, h3, h4⟩
      | some ch =>
          cases hda : d.active with
          | false =>
              simp only [sendUpdateGo, hc, hda, Bool.false_eq_true, if_false] at hne
              obtain ⟨e, he, h1, h2, h3, h4⟩ := ih st v hne
              exact ⟨e, List.mem_cons_of_mem _ he, h1, h2, h3, h4⟩
          | true =>
              cases jf with
              | true =>
                  rw [go_found_store] at hne
                  exact absurd rfl hne
              | false =>
                  cases hm : d.status_message_id with
                  | some m =>
                      cases htr : tr (.edit ch m text) with
                      | none =>
                          simp only [sendUpdateGo, hc, hda, hm, htr, if_true] at hne
                          exact absurd rfl hne
                      | some r =>
                          simp only [sendUpdateGo, hc, hda, hm, htr, if_true] at hne
                          obtain ⟨e, he, h1, h2, h3, h4⟩ := ih st v hne
                          exact ⟨e, List.mem_cons_of_mem _ he, h1, h2, h3, h4⟩
                  | none =>
                      cases htr : tr (.send ch text) with
                      | none =>
                          simp only [sendUpdateGo, hc, hda, hm, htr, if_true] at hne
                          exact absurd rfl hne
                      | some mid =>
                          cases hg : getUserData st k with
                          | none =>
                              simp only [sendUpdateGo, hc, hda, hm, htr, hg,
                                if_true] at hne
                              obtain ⟨e, he, h1, h2, h3, h4⟩ := ih st v hne
                              exact ⟨e, List.mem_cons_of_mem _ he, h1, h2, h3, h4⟩
                          | some d2 =>
                              simp only [sendUpdateGo, hc, hda, hm, htr, hg,
                                if_true] at hne
                              by_cases h1 :
                                  getUserData
                                    (updateUserData st k
                                      { d2 with status_message_id := some mid }) v =
                                    getUserData st v
                              · rw [← h1] at hne
                                obtain ⟨e, he, ha, hb, hcc, hd2⟩ := ih _ v hne
                                exact ⟨e, List.mem_cons_of_mem _ he, ha, hb, hcc, hd2⟩
                              · have hkv : k = v := by
                                  by_contra hkk
                                  exact h1 (getUserData_updateUserData_ne st k v _ hkk)
                                subst hkv
                                exact ⟨d, List.mem_cons_self _ _, hda, by simp [hc],
                                  hm, rfl⟩

lemma tcallsTo_append (u : String) (a b : List Ev) :
    tcallsTo u (a ++ b) = tcallsTo u a ++ tcallsTo u b :=
  List.filterMap_append a b (evCallTo u)

/-- Keys absent from a list give the vacuous premise of
`go_inactive_skip`. -/
lemma notkey_inactive (u : String) (l : List (String × UserData))
    (h : u ∉ l.map Prod.fst) : ∀ e, (u, e) ∈ l → e.active = false :=
  fun _ he => absurd (List.mem_map_of_mem Prod.fst he) h

/-- "Not found" cycle, target subscriber holds a handle: the only call
addressed to it is the edit at that handle, and its record is untouched —
provided no transport call fails. -/
lemma go_target_edit (tr : TCall → Option Nat) (text : String)
    (hok : ∀ c, (tr c).isSome = true)
    (u : String) (d : UserData) (ch : Int) (m : Nat)
    (l1 l2 : List (String × UserData)) (st : Store)
    (h1 : u ∉ l1.map Prod.fst) (h2 : u ∉ l2.map Prod.fst)
    (hact : d.active = true) (hch : d.chat_id = some ch)
    (hm : d.status_message_id = some m) :
    tcallsTo u (sendUpdateGo tr false text (l1 ++ (u, d) :: l2) st).1 =
      [TCall.edit ch m text] ∧
    getUserData (sendUpdateGo tr false text (l1 ++ (u, d) :: l2) st).2 u =
      getUserData st u := by
  obtain ⟨uidN, chatF, unF, emF, phF, smF, actF⟩ := d
  simp only at hact hch hm
  subst hact hch hm
  have vac1 := notkey_inactive u l1 h1
  have vac2 := notkey_inactive u l2 h2
  have hskip1 := go_inactive_skip tr false text u l1 st vac1
  rw [go_append tr false text hok l1 _ st]
  obtain ⟨r, hr⟩ := Option.isSome_iff_exists.1 (hok (.edit ch m text))
  have hskip2 := go_inactive_skip tr false text u l2
    (sendUpdateGo tr false text l1 st).2 vac2
  constructor
  · rw [tcallsTo_append, hskip1.1]
    simp [sendUpdateGo, hr, tcallsTo_readEvs, tcallsTo_cons_tcall_self,
      hskip2.1]
  · simp [sendUpdateGo, hr, hskip2.2, hskip1.2]

/-- "Not found" cycle, target subscriber has no handle: a single send is
addressed to it and the handle returned by the transport is persisted into
its record — provided no transport call fails. -/
lemma go_target_sendNew (tr : TCall → Option Nat) (text : String)
    (hok : ∀ c, (tr c).isSome = true)
    (u : String) (d : UserData) (ch : Int) (mid : Nat)
    (l1 l2 : List (String × UserData)) (st : Store)
    (h1 : u ∉ l1.map Prod.fst) (h2 : u ∉ l2.map Prod.fst)
    (hact : d.active = true) (hch : d.chat_id = some ch)
    (hm : d.status_message_id = none)
    (hst : getUserData st u = some d)
    (hr : tr (.send ch text) = some mid) :
    tcallsTo u (sendUpdateGo tr false text (l1 ++ (u, d) :: l2) st).1 =
      [TCall.send ch text] ∧
    getUserData (sendUpdateGo tr false text (l1 ++ (u, d) :: l2) st).2 u =
      some { d with status_message_id := some mid } := by
  obtain ⟨uidN, chatF, unF, emF, phF, smF, actF⟩ := d
  simp only at hact hch hm
  subst hact hch hm
  have vac1 := notkey_inactive u l1 h1
  have vac2 := notkey_inactive u l2 h2
  have hskip1 := go_inactive_skip tr false text u l1 st vac1
  rw [go_append tr false text hok l1 _ st]
  have hst1 : getUserData (sendUpdateGo tr false text l1 st).2 u =
      some ⟨uidN, some ch, unF, emF, phF, none, true⟩ := by
    rw [hskip1.2, hst]
  have hskip2 := go_inactive_skip tr false text u l2
    (updateUserData (sendUpdateGo tr false text l1 st).2 u
      ⟨uidN, some ch, unF, emF, phF, some mid, true⟩) vac2
  constructor
  · rw [tcallsTo_append, hskip1.1]
    simp [sendUpdateGo, hr, hst1, tcallsTo_readEvs, tcallsTo_cons_tcall_self,
      hskip2.1]
  · simp [sendUpdateGo, hr, hst1, hskip2.2, getUserData_updateUserData_self]

lemma containsSub_notYetText (now : String)
    (h : containsSub jfNeedle now = false) :
    containsSub jfNeedle (notYetText now) = false := by
  have hJ : ('J' : Char) ∉ ("Not yet... Last checked at " : String).data := by decide
  have hjf : jfNeedle.data = 'J' :: "ob found!".data := by decide
  unfold containsSub notYetText
  rw [String.data_append]
  unfold containsSub at h
  rw [hjf] at h ⊢
  rw [subList_append_not_mem _ _ _ _ hJ]
  exact h

/-- Any cycle whose probe outcome coerces to `False` (zero filtered
results, or a probe failure) runs a "not found" fan-out with the transient
text, leaving the first-found timestamp alone.  The hypothesis `hnow`
states that the timestamp rendering does not itself contain the sentinel
`"Job found!"` that `send_update` greps for (true of every `strftime`
output). -/
lemma getUpdate_notFound (probe : ProbeOutcome) (now : String)
    (tr : TCall → Option Nat) (store : Store) (fst0 : Option String)
    (hp : (checkForJobPosting probe).getD false = false)
    (hnow : containsSub jfNeedle now = false) :
    getUpdate probe now tr ⟨store, fst0⟩ =
      (⟨(sendUpdateGo tr false (notYetText now) store store).2, fst0⟩,
       (sendUpdateGo tr false (notYetText now) store store).1) := by
  have hjf := containsSub_notYetText now hnow
  unfold jfNeedle at hjf
  unfold getUpdate composeViaApplication sendUpdate
  rw [hp]
  simp [generateUpdateMessageText, hjf]

/-! ### Email-validation lemmas -/

lemma getD_append_middle (p t q : List Char) (i : Nat) (hi : i < t.length) :
    (p ++ (t ++ q)).getD (p.length + i) ' ' = t.getD i ' ' := by
  rw [List.getD_eq_getElem?_getD, List.getD_eq_getElem?_getD,
    List.getElem?_append_right (Nat.le_add_right _ _), Nat.add_sub_cancel_left,
    List.getElem?_append]
  simp [hi]

lemma hasAt_append_middle (p t q : List Char) (h : hasAtWithDottedDomain t) :
    hasAtWithDottedDomain (p ++ (t ++ q)) := by
  obtain ⟨i, j, hij, hjl, hi, hj⟩ := h
  refine ⟨p.length + i, p.length + j, by omega, ?_, ?_, ?_⟩
  · simp only [List.length_append]
    omega
  · rw [getD_append_middle p t q i (by omega)]
    exact hi
  · rw [getD_append_middle p t q j hjl]
    exact hj

/-- Python `strip` only removes characters at the two ends, so an `@`
followed by a dot in the stripped text is present in the raw text. -/
lemma hasAt_pyStrip (s : String) (h : hasAtWithDottedDomain (pyStrip s).data) :
    hasAtWithDottedDomain s.data := by
  obtain ⟨p, hp⟩ := List.dropWhile_suffix (l := s.data) pyWSChar
  obtain ⟨q, hq⟩ :=
    List.dropWhile_suffix (l := (s.data.dropWhile pyWSChar).reverse) pyWSChar
  have hts : s.data.dropWhile pyWSChar =
      ((s.data.dropWhile pyWSChar).reverse.dropWhile pyWSChar).reverse ++
        q.reverse := by
    have h2 := congrArg List.reverse hq
    rw [List.reverse_append, List.reverse_reverse] at h2
    exact h2.symm
  have hdata : s.data = p ++
      (((s.data.dropWhile pyWSChar).reverse.dropWhile pyWSChar).reverse ++
        q.reverse) := by
    conv_lhs => rw [← hp, hts]
  have h2 : hasAtWithDottedDomain
      (((s.data.dropWhile pyWSChar).reverse.dropWhile pyWSChar).reverse) := h
  rw [hdata]
  exact hasAt_append_middle _ _ _ h2

lemma hasAt_mem_at (l : List Char) (h : hasAtWithDottedDomain l) : '@' ∈ l := by
  obtain ⟨i, j, hij, hjl, hi, _⟩ := h
  have hil : i < l.length := lt_trans hij hjl
  rw [List.getD_eq_getElem?_getD, List.getElem?_eq_getElem hil] at hi
  simp only [Option.getD_some] at hi
  rw [← hi]
  exact List.getElem_mem hil

/-- A successful match of the email pattern provides an `@` followed by a
dot: the regex acceptance refines the spec-side predicate. -/
lemma email_match_hasAt (l : List Char) (h : emailMatchB l = true) :
    hasAtWithDottedDomain l := by
  unfold emailMatchB at h
  rw [List.any_eq_true] at h
  obtain ⟨k, hkmem, hk⟩ := h
  simp only [Bool.and_eq_true, decide_eq_true_eq, beq_iff_eq,
    List.any_eq_true, List.mem_range] at hk
  obtain ⟨⟨⟨h1k, hloc⟩, hat⟩, m, hmr, ⟨⟨⟨⟨hm1, hm2⟩, hdom⟩, hdot⟩, ha1⟩, ha2⟩ := hk
  exact ⟨k, m, by omega, by omega, hat, hdot⟩

/-- An input without an `@`-then-dot shape is rejected by the email
regex, raw or stripped. -/
lemma emailMatchB_false_of_not_hasAt (s : String)
    (h : ¬hasAtWithDottedDomain s.data) :
    emailMatchB (pyStrip s).data = false := by
  cases hE : emailMatchB (pyStrip s).data with
  | false => rfl
  | true => exact absurd (hasAt_pyStrip s (email_match_hasAt _ hE)) h

/-- On the digits-only residue the phone regex `^[0-9]{10}$` reduces to a
length test: every character survived the `[^\d]` strip, so the digit
class is automatic. -/
lemma phoneMatchB_stripNonDigits (s : String) :
    phoneMatchB (stripNonDigits s).data = ((stripNonDigits s).data.length == 10) := by
  have hall : (s.data.filter Char.isDigit).all Char.isDigit = true := by
    rw [List.all_eq_true]
    intro a ha
    exact (List.mem_filter.1 ha).2
  show ((s.data.filter Char.isDigit).length == 10 &&
      (s.data.filter Char.isDigit).all Char.isDigit) = _
  rw [hall, Bool.and_true]
  rfl

/-! ### Concrete fixtures for closed demonstrations and witnesses -/

/-- An active subscriber holding a status-message handle. -/
def uWithHandle : UserData :=
  { user_id := 1, chat_id := some 5, username := "Black Cat", email := none,
    phone := none, status_message_id := some 9, active := true }

/-- An active subscriber with no status-message handle. -/
def uNoHandle : UserData :=
  { user_id := 2, chat_id := some 6, username := "Black Dog", email := none,
    phone := none, status_message_id := none, active := true }

/-- An inactive subscriber holding a status-message handle. -/
def uInactive : UserData :=
  { user_id := 3, chat_id := some 7, username := "Black Fox", email := none,
    phone := none, status_message_id := some 8, active := false }

/-- A transport that always succeeds, returning message id 42. -/
def trOK : TCall → Option Nat := fun _ => some 42

/-- A sample poll timestamp. -/
def ts0 : String := "2026-02-03 04:05:06"

/-- A transport that raises exactly on the edit addressed to the first
fixture subscriber and succeeds on everything else. -/
def trFailFirst : TCall → Option Nat :=
  fun c => if c = .edit 5 9 (notYetText ts0) then none else some 42

/-- A transport that raises exactly on the transient-text send addressed
to chat 6 and succeeds on everything else. -/
def trFailSend6 : TCall → Option Nat :=
  fun c => if c = .send 6 (notYetText ts0) then none else some 42

/-! ### Claim theorems -/

/-- Claim C1 (code bug demonstration).  The claim states that a transport
failure for one subscriber does not prevent delivery attempts to the
remaining subscribers of the same cycle.  In `send_update` the
`except (TelegramError, aiohttp.ClientError)` clause executes `return`,
ending the whole fan-out: with two active subscribers and a transport
that fails on the first one's edit, the first subscriber is attempted and
the error is logged, but no call is ever addressed to the second
subscriber; the store is left untouched. -/
theorem claim_C1_transport_error_aborts_fanout :
    tcallsTo "1" (sendUpdate trFailFirst (notYetText ts0)
        [("1", uWithHandle), ("2", uNoHandle)]).1 =
      [TCall.edit 5 9 (notYetText ts0)] ∧
    trFailFirst (TCall.edit 5 9 (notYetText ts0)) = none ∧
    Ev.logError ∈ (sendUpdate trFailFirst (notYetText ts0)
        [("1", uWithHandle), ("2", uNoHandle)]).1 ∧
    tcallsTo "2" (sendUpdate trFailFirst (notYetText ts0)
        [("1", uWithHandle), ("2", uNoHandle)]).1 = [] ∧
    (sendUpdate trFailFirst (notYetText ts0)
        [("1", uWithHandle), ("2", uNoHandle)]).2 =
      [("1", uWithHandle), ("2", uNoHandle)] := by
  decide

/-- Claim C2 (code bug demonstration).  The claim states that a probe
failure skips the cycle entirely: no transport call, no mutation.  But
`check_for_job_posting` catches every exception and returns `None`
(it never raises the `JobPostingError`/`NetworkError` that `get_update`
guards against), and `get_update` coerces `None` with `bool(...)` to a
"not found" cycle: on a probe-failure tick the engine still edits the
message of a handle-holding subscriber, and still sends to and persists a
new handle for a handle-less subscriber. -/
theorem claim_C2_probe_failure_cycle_not_skipped :
    tcallsTo "1" (getUpdate .err ts0 trOK ⟨[("1", uWithHandle)], none⟩).2 =
      [TCall.edit 5 9 (notYetText ts0)] ∧
    getUserData (getUpdate .err ts0 trOK ⟨[("2", uNoHandle)], none⟩).1.store "2" =
      some { uNoHandle with status_message_id := some 42 } := by
  decide

/-- Claim C3 (counterexample).  The claim asserts that for an inactive
subscriber the engine "does not read ... that subscriber's message
state"; but `send_update` reads `status_message_id` (line 80) before the
`active` check, so the read happens for every iterated subscriber,
inactive ones included. -/
theorem claim_C3_counterexample :
    Ev.readMsg "3" ∈ (getUpdate (.ok 0) ts0 trOK ⟨[("3", uInactive)], none⟩).2 ∧
    uInactive.active = false := by
  decide

/-- Claim C3 (amended).  For every poll cycle — any probe outcome, any
transport behaviour — and every subscriber whose `active` field is false,
the engine makes zero transport calls addressed to that subscriber and
does not mutate its record; its stored message handle is however read
when the iteration reaches the subscriber. -/
theorem claim_C3_inactive_no_calls_no_mutation
    (probe : ProbeOutcome) (now : String) (tr : TCall → Option Nat)
    (store : Store) (fst0 : Option String) (u : String) (d : UserData)
    (hnd : (store.map Prod.fst).Nodup)
    (hu : getUserData store u = some d)
    (hact : d.active = false) :
    tcallsTo u (getUpdate probe now tr ⟨store, fst0⟩).2 = [] ∧
    getUserData (getUpdate probe now tr ⟨store, fst0⟩).1.store u = some d := by
  have hall : ∀ e, (u, e) ∈ store → e.active = false := by
    intro e he
    rw [mem_eq_of_nodup store u d e hnd hu he]
    exact hact
  cases hst : (checkForJobPosting probe).getD false with
  | true =>
      -- the composition raises: the cycle makes no call and changes nothing
      simp only [getUpdate, composeViaApplication, hst, if_true]
      exact ⟨rfl, hu⟩
  | false =>
      simp only [getUpdate, composeViaApplication, hst, Bool.false_eq_true,
        if_false, sendUpdate]
      have h := go_inactive_skip tr
        (containsSub "Job found!" (generateUpdateMessageText fst0 false now).2)
        (generateUpdateMessageText fst0 false now).2 u store store hall
      exact ⟨h.1, by rw [h.2, hu]⟩

/-- Claim C3 witness. -/
theorem claim_C3_witness :
    tcallsTo "3" (getUpdate (.ok 0) ts0 trOK ⟨[("3", uInactive)], none⟩).2 = [] ∧
    getUserData (getUpdate (.ok 0) ts0 trOK ⟨[("3", uInactive)], none⟩).1.store "3" =
      some uInactive :=
  claim_C3_inactive_no_calls_no_mutation (.ok 0) ts0 trOK [("3", uInactive)] none
    "3" uInactive (by decide) (by decide) (by decide)

/-- Claim C4 (counterexample).  The claim quantifies over every "not
found" poll cycle; but in a cycle where the transport fails for a
subscriber iterated earlier, the `except` clause of `send_update` returns
and the engine issues no edit at all to a later active subscriber holding
a handle: with the handle-less chat-6 subscriber first (its send fails)
the chat-5 subscriber, active with handle 9, receives no call. -/
theorem claim_C4_counterexample :
    uWithHandle.active = true ∧ uWithHandle.status_message_id = some 9 ∧
    tcallsTo "1" (getUpdate (.ok 0) ts0 trFailSend6
        ⟨[("2", uNoHandle), ("1", uWithHandle)], none⟩).2 = [] := by
  decide

/-- Claim C4 (amended).  In a cycle whose probe reports "not found" and
in which no transport call fails, an active subscriber holding a handle
receives exactly one transport call: the edit of the existing message at
that handle (never a send), and its stored record — in particular the
handle — is unchanged.  (Without the no-failure proviso the fan-out can
abort before reaching the subscriber, see the counterexample.)  The
`hnow` hypothesis says the timestamp rendering is free of the
`"Job found!"` sentinel, true of every `strftime` output. -/
theorem claim_C4_edit_in_place
    (store : Store) (fst0 : Option String) (now : String)
    (tr : TCall → Option Nat) (u : String) (d : UserData) (ch : Int) (m : Nat)
    (hnd : (store.map Prod.fst).Nodup)
    (hok : ∀ c, (tr c).isSome = true)
    (hnow : containsSub jfNeedle now = false)
    (hu : getUserData store u = some d)
    (hact : d.active = true) (hch : d.chat_id = some ch)
    (hm : d.status_message_id = some m) :
    tcallsTo u (getUpdate (.ok 0) now tr ⟨store, fst0⟩).2 =
      [TCall.edit ch m (notYetText now)] ∧
    getUserData (getUpdate (.ok 0) now tr ⟨store, fst0⟩).1.store u = some d := by
  rw [getUpdate_notFound (.ok 0) now tr store fst0 (by simp [checkForJobPosting]) hnow]
  obtain ⟨l1, l2, heq, h1, h2⟩ := getUserData_decomp store u d hnd hu
  rw [heq] at hu ⊢
  have h := go_target_edit tr (notYetText now) hok u d ch m l1 l2
    (l1 ++ (u, d) :: l2) h1 h2 hact hch hm
  exact ⟨h.1, by rw [h.2, hu]⟩

/-- Claim C4 witness. -/
theorem claim_C4_witness :
    tcallsTo "1" (getUpdate (.ok 0) ts0 trOK ⟨[("1", uWithHandle)], none⟩).2 =
      [TCall.edit 5 9 (notYetText ts0)] ∧
    getUserData (getUpdate (.ok 0) ts0 trOK ⟨[("1", uWithHandle)], none⟩).1.store "1" =
      some uWithHandle :=
  claim_C4_edit_in_place [("1", uWithHandle)] none ts0 trOK "1" uWithHandle 5 9
    (by decide) (fun _ => rfl) (by decide) (by decide) (by decide) (by decide)
    (by decide)

/-- Claim C5 (counterexample).  In a "not found" cycle where the
transport fails for an earlier subscriber, the fan-out aborts before a
later active handle-less subscriber: no send is issued to it and no
handle is persisted, contradicting the claim's universal statement. -/
theorem claim_C5_counterexample :
    uNoHandle.active = true ∧ uNoHandle.status_message_id = none ∧
    tcallsTo "2" (getUpdate (.ok 0) ts0 trFailFirst
        ⟨[("1", uWithHandle), ("2", uNoHandle)], none⟩).2 = [] ∧
    getUserData (getUpdate (.ok 0) ts0 trFailFirst
        ⟨[("1", uWithHandle), ("2", uNoHandle)], none⟩).1.store "2" =
      some uNoHandle := by
  decide

/-- Claim C5 (amended).  In a "not found" cycle in which no transport
call fails, an active subscriber without a stored handle receives exactly
one send; the message id returned by the transport is persisted into its
record, so a subsequent `get` returns it; and any record that changes at
all during the fan-out belongs to a subscriber that was active, had a
chat handle and had no stored handle — i.e. this branch is the only one
that mutates the store. -/
theorem claim_C5_persist_new_handle
    (store : Store) (fst0 : Option String) (now : String)
    (tr : TCall → Option Nat) (u : String) (d : UserData) (ch : Int)
    (hnd : (store.map Prod.fst).Nodup)
    (hok : ∀ c, (tr c).isSome = true)
    (hnow : containsSub jfNeedle now = false)
    (hu : getUserData store u = some d)
    (hact : d.active = true) (hch : d.chat_id = some ch)
    (hm : d.status_message_id = none) :
    ∃ mid, tr (.send ch (notYetText now)) = some mid ∧
      tcallsTo u (getUpdate (.ok 0) now tr ⟨store, fst0⟩).2 =
        [TCall.send ch (notYetText now)] ∧
      getUserData (getUpdate (.ok 0) now tr ⟨store, fst0⟩).1.store u =
        some { d with status_message_id := some mid } ∧
      ∀ v e, getUserData store v = some e →
        getUserData (getUpdate (.ok 0) now tr ⟨store, fst0⟩).1.store v ≠ some e →
        e.active = true ∧ e.chat_id.isSome = true ∧ e.status_message_id = none := by
  obtain ⟨mid, hmid⟩ := Option.isSome_iff_exists.1 (hok (.send ch (notYetText now)))
  refine ⟨mid, hmid, ?_⟩
  rw [getUpdate_notFound (.ok 0) now tr store fst0 (by simp [checkForJobPosting]) hnow]
  obtain ⟨l1, l2, heq, h1, h2⟩ := getUserData_decomp store u d hnd hu
  have hmut : ∀ v e, getUserData store v = some e →
      getUserData (sendUpdateGo tr false (notYetText now) store store).2 v ≠ some e →
      e.active = true ∧ e.chat_id.isSome = true ∧ e.status_message_id = none := by
    intro v e hv hne
    rw [← hv] at hne
    obtain ⟨e2, hmem, ha, hb, hc2, _⟩ :=
      go_mutation tr false (notYetText now) store store v hne
    have he2 : e2 = e := mem_eq_of_nodup store v e e2 hnd hv hmem
    subst he2
    exact ⟨ha, hb, hc2⟩
  refine ⟨?_, ?_, ?_⟩
  · rw [heq]
    exact (go_target_sendNew tr (notYetText now) hok u d ch mid l1 l2
      (l1 ++ (u, d) :: l2) h1 h2 hact hch hm (heq ▸ hu) hmid).1
  · rw [heq]
    exact (go_target_sendNew tr (notYetText now) hok u d ch mid l1 l2
      (l1 ++ (u, d) :: l2) h1 h2 hact hch hm (heq ▸ hu) hmid).2
  · exact hmut

/-- Claim C5 witness. -/
theorem claim_C5_witness :
    ∃ mid, trOK (.send 6 (notYetText ts0)) = some mid ∧
      tcallsTo "2" (getUpdate (.ok 0) ts0 trOK ⟨[("2", uNoHandle)], none⟩).2 =
        [TCall.send 6 (notYetText ts0)] ∧
      getUserData (getUpdate (.ok 0) ts0 trOK ⟨[("2", uNoHandle)], none⟩).1.store "2" =
        some { uNoHandle with status_message_id := some mid } ∧
      ∀ v e, getUserData [("2", uNoHandle)] v = some e →
        getUserData (getUpdate (.ok 0) ts0 trOK
          ⟨[("2", uNoHandle)], none⟩).1.store v ≠ some e →
        e.active = true ∧ e.chat_id.isSome = true ∧ e.status_message_id = none :=
  claim_C5_persist_new_handle [("2", uNoHandle)] none ts0 trOK "2" uNoHandle 6
    (by decide) (fun _ => rfl) (by decide) (by decide) (by decide) (by decide)
    (by decide)

/-- Claim C6 (code bug demonstration).  The claim states that a "found"
cycle issues a fresh send to every active subscriber with a terminal text
embedding the first-observed-found time and the current check time.  But
`get_update` (update_manager.py line 156) invokes
`Helper.generate_update_message_text` through the class with
`self.application` — the telegram `Application` — as receiver, and the
found branch reads `self.initial_job_found_time` (helpers.py line 76), an
attribute the `Application` does not have: every "found" cycle raises
`AttributeError` before composing, uncaught by `get_update`.  The engine
therefore makes zero transport calls, composes nothing, and leaves the
store and the first-found state untouched on every found cycle, active
subscriber or not.  The second conjunct shows that the helper itself,
applied to its own state as `helpers.py` defines it, composes exactly the
two-timestamp terminal message the claim describes: the claim matches the
evident intent and the receiver at the call site is the slip.  (The
"not found" branch of the helper touches no attribute of `self` and keeps
working, which is why the C2-C5 behaviour is unaffected.) -/
theorem claim_C6_found_cycle_raises_before_send :
    getUpdate (.ok 1) ts0 trOK ⟨[("1", uWithHandle)], none⟩ =
      (⟨[("1", uWithHandle)], none⟩, [Ev.uncaughtAttrError]) ∧
    tcallsTo "1" (getUpdate (.ok 1) ts0 trOK ⟨[("1", uWithHandle)], none⟩).2 = [] ∧
    uWithHandle.active = true ∧
    generateUpdateMessageText none true ts0 =
      (some ts0,
       "Job found! Initially found at 2026-02-03 04:05:06. Last verified at 2026-02-03 04:05:06.\n/deactivate") := by
  decide

/-- Claim C7.  `/start` for an identity already present in the store is a
pure status query: the store is returned unchanged — no second entry, no
field reset — and the reply only reports the current activation state. -/
theorem claim_C7_start_idempotent
    (store : Store) (uid : String) (uidNum chat : Int)
    (usernameRes : Option String) (firstName : String) (d : UserData)
    (hu : getUserData store uid = some d) :
    startCmd store uid uidNum chat usernameRes firstName =
      (store,
       [if d.active then "Type /deactivate to stop receiving updates."
        else "Type /activate to receive updates."]) := by
  unfold startCmd
  rw [hu]

/-- Claim C7 witness. -/
theorem claim_C7_witness :
    startCmd [("1", uWithHandle)] "1" 1 5 (some "Black Owl") "Al" =
      ([("1", uWithHandle)],
       [if uWithHandle.active then "Type /deactivate to stop receiving updates."
        else "Type /activate to receive updates."]) :=
  claim_C7_start_idempotent [("1", uWithHandle)] "1" 1 5 (some "Black Owl") "Al"
    uWithHandle (by decide)

/-- Claim C8.  Profile conversation validation: an email input lacking an
`@` followed by a dot is rejected with a re-prompt that stays in the
`"get_email"` state and leaves the store alone; every phone input is
first stripped of all non-digit characters and committed iff exactly ten
digits remain — committed (for a registered subscriber) with the digits
stored and echoed in `XXX-XXX-XXXX` rendering, otherwise rejected with a
re-prompt staying in the `"get_phone"` state with the store untouched; in
particular `"(555) 123-4567"` is stored as `"5551234567"` and echoed
rendered as `"555-123-4567"`, while `"12345"` is rejected. -/
theorem claim_C8_profile_validation :
    (∀ (store : Store) (uid s : String), ¬hasAtWithDottedDomain s.data →
        getEmail store uid s =
          (store,
           ["Invalid email address. Please try again.\n\n/clear your email address\n/cancel this operation"],
           .reprompt "get_email")) ∧
    (∀ (store : Store) (uid : String) (d : UserData) (s : String),
        getUserData store uid = some d →
        (stripNonDigits (pyStrip s)).data.length = 10 →
        getPhone store uid s =
          (updateUserData store uid
            { d with phone := some (stripNonDigits (pyStrip s)) },
           ["Your phone number has been saved as " ++
              formatPhone (stripNonDigits (pyStrip s)) ++ "."], .endConv)) ∧
    (∀ (store : Store) (uid s : String),
        (stripNonDigits (pyStrip s)).data.length ≠ 10 →
        getPhone store uid s =
          (store,
           ["Invalid phone number. Please try again.\n\n/clear your phone number\n/cancel this operation"],
           .reprompt "get_phone")) ∧
    (∀ (store : Store) (uid : String) (d : UserData),
        getUserData store uid = some d →
        getPhone store uid "(555) 123-4567" =
          (updateUserData store uid { d with phone := some "5551234567" },
           ["Your phone number has been saved as 555-123-4567."], .endConv)) ∧
    (∀ (store : Store) (uid : String),
        getPhone store uid "12345" =
          (store,
           ["Invalid phone number. Please try again.\n\n/clear your phone number\n/cancel this operation"],
           .reprompt "get_phone")) := by
  refine ⟨?_, ?_, ?_, ?_, ?_⟩
  · intro store uid s h
    have hE := emailMatchB_false_of_not_hasAt s h
    simp [getEmail, hE]
  · intro store uid d s hd hlen
    have hp : phoneMatchB (stripNonDigits (pyStrip s)).data = true := by
      rw [phoneMatchB_stripNonDigits]
      simp [hlen]
    simp [getPhone, hp, hd]
  · intro store uid s hlen
    have hp : phoneMatchB (stripNonDigits (pyStrip s)).data = false := by
      rw [phoneMatchB_stripNonDigits]
      exact beq_eq_false_iff_ne.mpr hlen
    simp [getPhone, hp]
  · intro store uid d hd
    have h1 : stripNonDigits (pyStrip "(555) 123-4567") = "5551234567" := by decide
    have h2 : phoneMatchB ("5551234567" : String).data = true := by decide
    have h3 : ("Your phone number has been saved as " ++
        formatPhone "5551234567" ++ "." : String) =
        "Your phone number has been saved as 555-123-4567." := by decide
    simp [getPhone, h1, h2, h3, hd]
  · intro store uid
    have h1 : stripNonDigits (pyStrip "12345") = "12345" := by decide
    have h2 : phoneMatchB ("12345" : String).data = false := by decide
    simp [getPhone, h1, h2]

/-- Claim C8 witness. -/
theorem claim_C8_witness :
    getEmail [("1", uWithHandle)] "1" "not-an-email" =
      ([("1", uWithHandle)],
       ["Invalid email address. Please try again.\n\n/clear your email address\n/cancel this operation"],
       .reprompt "get_email") ∧
    getPhone [("1", uWithHandle)] "1" "555.123.4567" =
      (updateUserData [("1", uWithHandle)] "1"
        { uWithHandle with phone := some (stripNonDigits (pyStrip "555.123.4567")) },
       ["Your phone number has been saved as " ++
          formatPhone (stripNonDigits (pyStrip "555.123.4567")) ++ "."], .endConv) ∧
    getPhone [("1", uWithHandle)] "1" "12" =
      ([("1", uWithHandle)],
       ["Invalid phone number. Please try again.\n\n/clear your phone number\n/cancel this operation"],
       .reprompt "get_phone") ∧
    getPhone [("1", uWithHandle)] "1" "(555) 123-4567" =
      (updateUserData [("1", uWithHandle)] "1"
        { uWithHandle with phone := some "5551234567" },
       ["Your phone number has been saved as 555-123-4567."], .endConv) ∧
    getPhone [("1", uWithHandle)] "1" "12345" =
      ([("1", uWithHandle)],
       ["Invalid phone number. Please try again.\n\n/clear your phone number\n/cancel this operation"],
       .reprompt "get_phone") :=
  ⟨claim_C8_profile_validation.1 [("1", uWithHandle)] "1" "not-an-email"
      (fun h => absurd (hasAt_mem_at _ h) (by decide)),
   claim_C8_profile_validation.2.1 [("1", uWithHandle)] "1" uWithHandle
     "555.123.4567" (by decide) (by decide),
   claim_C8_profile_validation.2.2.1 [("1", uWithHandle)] "1" "12" (by decide),
   claim_C8_profile_validation.2.2.2.1 [("1", uWithHandle)] "1" uWithHandle
     (by decide),
   claim_C8_profile_validation.2.2.2.2 [("1", uWithHandle)] "1"⟩

/-- Claim C9 (code bug demonstration).  The claim's registered-no-handle
half holds: the reply "No status message to repost." is `await`ed and
delivered, and the store is unchanged.  The unregistered half is broken
in the code: `command_handlers.py` line 27 calls
`update.message.reply_text(...)` without `await`, so the coroutine is
never executed and the "please use /start" instruction is never sent —
the user receives nothing (the store is indeed not mutated, and nothing
is logged as an error).  The first conjunct's empty reply list is the
divergence; the second is the half that works as claimed. -/
theorem claim_C9_repost_no_reply_guards :
    (∀ (store : Store) (uid : String), getUserData store uid = none →
        repost store uid = (store, [], false)) ∧
    (∀ (store : Store) (uid : String) (d : UserData),
        getUserData store uid = some d → d.status_message_id = none →
        repost store uid = (store, ["No status message to repost."], false)) := by
  constructor
  · intro store uid hu
    unfold repost
    rw [hu]
  · intro store uid d hu hm
    unfold repost
    rw [hu]
    simp [hm]

/-- Claim C9 witness. -/
theorem claim_C9_witness :
    repost [("2", uNoHandle)] "7" = ([("2", uNoHandle)], [], false) ∧
    repost [("2", uNoHandle)] "2" =
      ([("2", uNoHandle)], ["No status message to repost."], false) :=
  ⟨claim_C9_repost_no_reply_guards.1 [("2", uNoHandle)] "7" (by decide),
   claim_C9_repost_no_reply_guards.2 [("2", uNoHandle)] "2" uNoHandle (by decide)
     (by decide)⟩

/-- Claim C10.  For a registered subscriber with a stored handle the copy
attempt of `/repost` fails — `context.bot.copyMessage(...).message_id`
(line 39) reads `.message_id` on an un-awaited coroutine and raises — and
the operation is atomic with respect to the store: the handle would be
replaced and persisted only after a successful copy (lines 46-47, after
the raising expression), so the subscriber's record and every other
record are returned unchanged, the exception is caught and logged by the
broad `except`, and no reply is sent. -/
theorem claim_C10_repost_copy_atomic
    (store : Store) (uid : String) (d : UserData) (m : Nat)
    (hu : getUserData store uid = some d)
    (hm : d.status_message_id = some m) :
    repost store uid = (store, [], true) := by
  unfold repost
  rw [hu]
  simp [hm]

/-- Claim C10 witness. -/
theorem claim_C10_witness :
    repost [("1", uWithHandle), ("2", uNoHandle)] "1" =
      ([("1", uWithHandle), ("2", uNoHandle)], [], true) :=
  claim_C10_repost_copy_atomic [("1", uWithHandle), ("2", uNoHandle)] "1"
    uWithHandle 9 (by decide) (by decide)

end GS13Bot
